import Mathlib

/-!
Verification of the analytics aggregation/report pipeline of the
Western Heights Inc. website backend (file contact-handler.py,
class WebsiteAnalytics) against its specification.

The SQLite tables page_views, sessions and conversions are embedded as
lists of rows inside a Store; timestamps are absolute seconds and the
local date truncation DATE(timestamp) is division by the number of
seconds in a day.
-/

namespace Analytics

/-- Seconds in one calendar day, used by the local date truncation. -/
def secondsPerDay : Nat := 86400

/-- Calendar-day index of an absolute timestamp, the embedding of
the SQL DATE(timestamp) truncation. -/
def dateOf (t : Nat) : Nat := t / secondsPerDay

/-- One row of the page_views table. -/
structure PageViewRow where
  session_id : Option String
  page_url : String
  page_title : String
  referrer : String
  user_agent : String
  ip_address : String
  country : String
  city : String
  timestamp : Nat
  time_on_page : Int
  scroll_depth : Int
deriving DecidableEq, Repr

/-- One row of the sessions table. -/
structure SessionRow where
  user_id : String
  device_type : String
  browser : String
  os : String
  screen_resolution : String
  first_visit : Nat
  last_visit : Nat
  total_views : Nat
  duration : Option Int
deriving DecidableEq, Repr

/-- One row of the conversions table; page_url is a column of the
table that track_conversion leaves NULL. -/
structure ConversionRow where
  session_id : Option String
  conversion_type : String
  conversion_value : Int
  page_url : Option String
  form_data : Option String
  timestamp : Nat
deriving DecidableEq, Repr

/-- The persistent store: the three SQLite tables. -/
structure Store where
  page_views : List PageViewRow := []
  sessions : List (Option String × SessionRow) := []
  conversions : List ConversionRow := []
deriving DecidableEq, Repr

/-- The empty database. -/
def emptyStore : Store := {}

/-- The dict payload handed to track_page_view; an absent key of the
Python dict is a none field. -/
structure PageViewData where
  session_id : Option String := none
  page_url : Option String := none
  page_title : Option String := none
  referrer : Option String := none
  user_agent : Option String := none
  ip_address : Option String := none
  country : Option String := none
  city : Option String := none
  time_on_page : Option Int := none
  scroll_depth : Option Int := none
  user_id : Option String := none
  device_type : Option String := none
  browser : Option String := none
  os : Option String := none
  screen_resolution : Option String := none
deriving DecidableEq, Repr

/-- The page_views row inserted by track_page_view: data.get defaults
are empty strings, except country and city which default to the string
Unknown, and zero for the numeric fields; session_id is stored as
given, NULL included; timestamp is the DB-side current time. -/
def pageViewRowOf (now : Nat) (d : PageViewData) : PageViewRow where
  session_id := d.session_id
  page_url := d.page_url.getD ""
  page_title := d.page_title.getD ""
  referrer := d.referrer.getD ""
  user_agent := d.user_agent.getD ""
  ip_address := d.ip_address.getD ""
  country := d.country.getD "Unknown"
  city := d.city.getD "Unknown"
  timestamp := now
  time_on_page := d.time_on_page.getD 0
  scroll_depth := d.scroll_depth.getD 0

/-- The sessions row inserted on first sight of a session_id:
first_visit = last_visit = now, total_views = 1, duration NULL. -/
def newSessionRow (now : Nat) (d : PageViewData) : SessionRow where
  user_id := d.user_id.getD ""
  device_type := d.device_type.getD ""
  browser := d.browser.getD ""
  os := d.os.getD ""
  screen_resolution := d.screen_resolution.getD ""
  first_visit := now
  last_visit := now
  total_views := 1
  duration := none

/-- Lookup of a sessions row by key. -/
def lookupSession (sess : List (Option String × SessionRow)) (k : Option String) :
    Option SessionRow :=
  (sess.find? (fun p => p.1 == k)).map (fun p => p.2)

/-- The INSERT ... ON CONFLICT(session_id) DO UPDATE statement of
track_page_view: on conflict only last_visit and total_views change;
a NULL session_id never conflicts in SQLite, so it always inserts. -/
def upsertSession (now : Nat) (d : PageViewData)
    (sess : List (Option String × SessionRow)) : List (Option String × SessionRow) :=
  match d.session_id with
  | none => sess ++ [(none, newSessionRow now d)]
  | some sid =>
    if sess.any (fun p => p.1 == some sid) then
      sess.map (fun p =>
        if p.1 == some sid then
          (p.1, { p.2 with last_visit := now, total_views := p.2.total_views + 1 })
        else p)
    else sess ++ [(some sid, newSessionRow now d)]

/-- WebsiteAnalytics.track_page_view on the success path: append one
page_views row and upsert the sessions row, then commit. -/
def track_page_view (now : Nat) (d : PageViewData) (s : Store) : Store :=
  { s with
    page_views := s.page_views ++ [pageViewRowOf now d]
    sessions := upsertSession now d s.sessions }

/-- WebsiteAnalytics.track_conversion on the success path: append one
conversions row; the page_url column is left NULL by the INSERT. -/
def track_conversion (now : Nat) (sid : String) (ctype : String)
    (cvalue : Int) (form_data : Option String) (s : Store) : Store :=
  { s with
    conversions := s.conversions ++
      [{ session_id := some sid
         conversion_type := ctype
         conversion_value := cvalue
         page_url := none
         form_data := form_data
         timestamp := now }] }

/-- A timed tracking event: the wall-clock time of the call and the
payload handed to track_page_view. -/
structure Ev where
  now : Nat
  data : PageViewData
deriving DecidableEq, Repr

/-- Run a sequence of track_page_view calls against a store. -/
def runEvents (evs : List Ev) (s : Store) : Store :=
  evs.foldl (fun st e => track_page_view e.now e.data st) s

/-- Daily report record, the dict built by get_daily_report; top_pages
entries are (page, views) and referrers entries are (referrer, visits). -/
structure Report where
  date : Nat
  total_visits : Nat
  unique_visitors : Nat
  page_views : Nat
  top_pages : List (String × Nat)
  referrers : List (String × Nat)
  conversions : Nat
deriving DecidableEq, Repr

/-- The report dict as initialized before any query runs: every count
zero and every list empty. -/
def emptyReport (d : Nat) : Report where
  date := d
  total_visits := 0
  unique_visitors := 0
  page_views := 0
  top_pages := []
  referrers := []
  conversions := 0

/-- Page views whose timestamp truncates to the given day, the
embedding of WHERE DATE(timestamp) = date. -/
def viewsOn (d : Nat) (s : Store) : List PageViewRow :=
  s.page_views.filter (fun v => dateOf v.timestamp == d)

/-- GROUP BY with COUNT(*): one entry per distinct value carrying its
multiplicity. -/
def groupCount (xs : List String) : List (String × Nat) :=
  xs.dedup.map (fun u => (u, xs.count u))

/-- ORDER BY views DESC on grouped rows. -/
def viewsDesc (a b : String × Nat) : Prop := b.2 ≤ a.2

instance : DecidableRel viewsDesc := fun a b =>
  inferInstanceAs (Decidable (b.2 ≤ a.2))

instance : IsTotal (String × Nat) viewsDesc := ⟨fun a b => Nat.le_total b.2 a.2⟩

instance : IsTrans (String × Nat) viewsDesc :=
  ⟨fun _ _ _ hab hbc => Nat.le_trans hbc hab⟩

/-- GROUP BY url, ORDER BY count DESC, LIMIT n over a list of urls. -/
def topOf (n : Nat) (xs : List String) : List (String × Nat) :=
  (List.insertionSort viewsDesc (groupCount xs)).take n

/-- Distinct non-NULL session ids, the embedding of
COUNT(DISTINCT session_id) which ignores NULLs. -/
def distinctSessions (vs : List PageViewRow) : Nat :=
  ((vs.filterMap (fun v => v.session_id)).dedup).length

/-- WebsiteAnalytics.get_daily_report on the success path: five
aggregation queries over the events of one calendar day. -/
def get_daily_report (d : Nat) (s : Store) : Report :=
  let dv := viewsOn d s
  { date := d
    unique_visitors := distinctSessions dv
    total_visits := dv.length
    page_views := dv.length
    top_pages := topOf 10 (dv.map (fun v => v.page_url))
    referrers := topOf 10 ((dv.filter (fun v => v.referrer != "")).map (fun v => v.referrer))
    conversions := (s.conversions.filter (fun c => dateOf c.timestamp == d)).length }

/-- One entry of the get_popular_pages result. -/
structure PopularPage where
  page_url : String
  total_views : Nat
  unique_visitors : Nat
deriving DecidableEq, Repr

/-- The grouped row of get_popular_pages for one url: COUNT(*) and
COUNT(DISTINCT session_id) over the rows with that url. -/
def popEntry (wv : List PageViewRow) (u : String) : PopularPage :=
  let uv := wv.filter (fun v => v.page_url == u)
  { page_url := u
    total_views := uv.length
    unique_visitors := distinctSessions uv }

/-- ORDER BY views DESC on popular-page rows. -/
def popDesc (a b : PopularPage) : Prop := b.total_views ≤ a.total_views

instance : DecidableRel popDesc := fun a b =>
  inferInstanceAs (Decidable (b.total_views ≤ a.total_views))

instance : IsTotal PopularPage popDesc :=
  ⟨fun a b => Nat.le_total b.total_views a.total_views⟩

instance : IsTrans PopularPage popDesc :=
  ⟨fun _ _ _ hab hbc => Nat.le_trans hbc hab⟩

/-- WebsiteAnalytics.get_popular_pages on the success path: group the
page views of the window DATE(timestamp) >= today - days by url, count
views and distinct sessions, sort by views descending and truncate. -/
def get_popular_pages (nowDay days limit : Nat) (s : Store) : List PopularPage :=
  let cutoff := nowDay - days
  let wv := s.page_views.filter (fun v => cutoff ≤ dateOf v.timestamp)
  (List.insertionSort popDesc ((wv.map (fun v => v.page_url)).dedup.map (popEntry wv))).take limit

/-! Failure injection.  Each tracking call runs its statements inside
one SQLite transaction: the writes stay pending until conn.commit, and
the except branch logs the error and calls conn.rollback, so the
committed store is unchanged whenever any statement raises. -/

/-- Result of a tracking call: the committed store after the call and
whether the except branch ran (the error was logged). -/
structure OpResult where
  state : Store
  errorLogged : Bool
deriving DecidableEq, Repr

/-- Run the statements of a transaction body in order; none models a
statement raising, which aborts the remaining statements. -/
def runStmts : List (Store → Option Store) → Store → Option Store
  | [], s => some s
  | f :: fs, s =>
    match f s with
    | none => none
    | some s2 => runStmts fs s2

/-- The try/except/rollback wrapper: commit publishes the pending
writes, any raise rolls back to the store as it was before the call
and logs the error; nothing propagates to the caller. -/
def runTxn (stmts : List (Store → Option Store)) (db : Store) : OpResult :=
  match runStmts stmts db with
  | some s2 => { state := s2, errorLogged := false }
  | none => { state := db, errorLogged := true }

/-- The INSERT INTO page_views statement; fail models the cursor
raising (storage unavailable). -/
def stmtInsertPageView (fail : Bool) (now : Nat) (d : PageViewData)
    (s : Store) : Option Store :=
  if fail then none
  else some { s with page_views := s.page_views ++ [pageViewRowOf now d] }

/-- The sessions upsert statement of track_page_view. -/
def stmtUpsertSession (fail : Bool) (now : Nat) (d : PageViewData)
    (s : Store) : Option Store :=
  if fail then none
  else some { s with sessions := upsertSession now d s.sessions }

/-- The conn.commit call, which can itself raise. -/
def stmtCommit (fail : Bool) (s : Store) : Option Store :=
  if fail then none else some s

/-- track_page_view with failure injection at each of its two
statements and at commit. -/
def track_page_view_run (f1 f2 f3 : Bool) (now : Nat) (d : PageViewData)
    (db : Store) : OpResult :=
  runTxn [stmtInsertPageView f1 now d, stmtUpsertSession f2 now d, stmtCommit f3] db

/-- The INSERT INTO conversions statement of track_conversion. -/
def stmtInsertConversion (fail : Bool) (now : Nat) (sid ctype : String)
    (cvalue : Int) (form_data : Option String) (s : Store) : Option Store :=
  if fail then none else some (track_conversion now sid ctype cvalue form_data s)

/-- track_conversion with failure injection at its statement and at
commit. -/
def track_conversion_run (f1 f2 : Bool) (now : Nat) (sid ctype : String)
    (cvalue : Int) (form_data : Option String) (db : Store) : OpResult :=
  runTxn [stmtInsertConversion f1 now sid ctype cvalue form_data, stmtCommit f2] db

/-- get_daily_report with failure injection: ok is the number of the
five aggregation queries that complete before one raises (ok >= 5
means none raises).  The report dict starts at its defaults and each
completed query fills its fields; the except branch only logs, so the
partially filled dict is returned. -/
def get_daily_report_run (ok : Nat) (d : Nat) (s : Store) : Report :=
  let dv := viewsOn d s
  let r0 := emptyReport d
  let r1 := if 1 ≤ ok then
    { r0 with unique_visitors := distinctSessions dv, total_visits := dv.length }
    else r0
  let r2 := if 2 ≤ ok then { r1 with page_views := dv.length } else r1
  let r3 := if 3 ≤ ok then
    { r2 with top_pages := topOf 10 (dv.map (fun v => v.page_url)) }
    else r2
  let refs := topOf 10 ((dv.filter (fun v => v.referrer != "")).map (fun v => v.referrer))
  let r4 := if 4 ≤ ok then { r3 with referrers := refs } else r3
  if 5 ≤ ok then
    { r4 with conversions := (s.conversions.filter (fun c => dateOf c.timestamp == d)).length }
  else r4

/-- get_popular_pages with failure injection: the except branch
returns the empty list. -/
def get_popular_pages_run (fail : Bool) (nowDay days limit : Nat)
    (s : Store) : List PopularPage :=
  if fail then [] else get_popular_pages nowDay days limit s

/-! Resource handles.  Every method opens a sqlite3 connection on
entry; the tracking and report methods close it in a finally block on
both the success and the error path.  export_data opens its own
connection and never closes it, while the two report calls it makes
open and close theirs. -/

/-- Acquisition and release of a store handle (sqlite3.connect and
conn.close). -/
inductive HandleEvent where
  | acquire
  | release
deriving DecidableEq, Repr

/-- Handle trace of track_page_view: connect on entry, close in the
finally block on every path. -/
def track_page_view_htrace (_onErrorPath : Bool) : List HandleEvent :=
  [HandleEvent.acquire, HandleEvent.release]

/-- Handle trace of track_conversion: connect, then close in finally. -/
def track_conversion_htrace (_onErrorPath : Bool) : List HandleEvent :=
  [HandleEvent.acquire, HandleEvent.release]

/-- Handle trace of get_daily_report: connect, then close in finally. -/
def get_daily_report_htrace (_onErrorPath : Bool) : List HandleEvent :=
  [HandleEvent.acquire, HandleEvent.release]

/-- Handle trace of get_popular_pages: connect, then close in finally. -/
def get_popular_pages_htrace (_onErrorPath : Bool) : List HandleEvent :=
  [HandleEvent.acquire, HandleEvent.release]

/-- Handle trace of export_data: it connects on entry, runs
get_daily_report and get_popular_pages (each with its own handle), and
returns without ever closing its own connection. -/
def export_data_htrace (f1 f2 : Bool) : List HandleEvent :=
  [HandleEvent.acquire] ++ get_daily_report_htrace f1 ++ get_popular_pages_htrace f2

/-- Number of handle acquisitions in a trace. -/
def acquires (tr : List HandleEvent) : Nat :=
  tr.countP (fun e => e == HandleEvent.acquire)

/-- Number of handle releases in a trace. -/
def releases (tr : List HandleEvent) : Nat :=
  tr.countP (fun e => e == HandleEvent.release)

/-! The exporter.  export_data builds a list of CSV lines and joins
them with a newline; numeric cells are the decimal rendering of the
report counters. -/

/-- Decimal digit character of a value below ten. -/
def decDigitChar : Nat → Char
  | 0 => '0'
  | 1 => '1'
  | 2 => '2'
  | 3 => '3'
  | 4 => '4'
  | 5 => '5'
  | 6 => '6'
  | 7 => '7'
  | 8 => '8'
  | 9 => '9'
  | _ => '*'

/-- Fuelled digit expansion; the fuel only bounds the recursion depth
and any fuel above the argument yields the full expansion. -/
def decDigitsAux : Nat → Nat → List Char
  | 0, _ => []
  | fuel + 1, n =>
    if n < 10 then [decDigitChar n]
    else decDigitsAux fuel (n / 10) ++ [decDigitChar (n % 10)]

/-- Decimal digit string of a natural number, most significant digit
first, as the Python str formatting of a count renders it. -/
def decDigits (n : Nat) : List Char := decDigitsAux (n + 1) n

/-- Decimal rendering of a natural number as a string. -/
def natDecimal (n : Nat) : String := String.mk (decDigits n)

/-- The newline join of the CSV lines, as str.join performs it. -/
def joinLines : List String → String
  | [] => ""
  | [l] => l
  | l :: l2 :: ls => l ++ "\n" ++ joinLines (l2 :: ls)

/-- The csv_lines list built by export_data for the csv format: the
fixed metric rows, a blank line, the per-page table header, and one
row per popular page (days=30, limit=20). -/
def csvLines (now : Nat) (s : Store) : List String :=
  let summary := get_daily_report (dateOf now) s
  let pages := get_popular_pages (dateOf now) 30 20 s
  ["Metric,Value",
   "Export Date," ++ natDecimal now,
   "Total Visits," ++ natDecimal summary.total_visits,
   "Unique Visitors," ++ natDecimal summary.unique_visitors,
   "Page Views," ++ natDecimal summary.page_views,
   "Conversions," ++ natDecimal summary.conversions,
   "",
   "Popular Pages,Views,Unique Visitors"] ++
  pages.map (fun p =>
    p.page_url ++ "," ++ natDecimal p.total_views ++ "," ++ natDecimal p.unique_visitors)

/-- WebsiteAnalytics.export_data in the csv format. -/
def export_data_csv (now : Nat) (s : Store) : String :=
  joinLines (csvLines now s)

/-! Parsing the Total Visits row back out of the exported string:
split the string into lines, locate the first line carrying the Total
Visits label, and read the decimal cell after the label. -/

/-- Split a character list at newline characters. -/
def splitLines : List Char → List (List Char)
  | [] => [[]]
  | c :: cs =>
    match splitLines cs with
    | [] => [[]]
    | l :: ls => if c = '\n' then [] :: l :: ls else (c :: l) :: ls

/-- Whether the first list is an initial segment of the second. -/
def startsWithList : List Char → List Char → Bool
  | [], _ => true
  | _ :: _, [] => false
  | p :: ps, c :: cs => p == c && startsWithList ps cs

/-- Read a nonempty all-digit cell as a natural number. -/
def parseNatChars (cs : List Char) : Option Nat :=
  if cs.isEmpty then none
  else if cs.all (fun c => c.isDigit) then
    some (cs.foldl (fun a c => a * 10 + (c.toNat - 48)) 0)
  else none

/-- The label cell of the Total Visits row. -/
def totalVisitsLabel : List Char := "Total Visits,".data

/-- Locate the Total Visits row of an exported string and parse its
value cell back as an integer. -/
def parse_total_visits (s : String) : Option Nat :=
  match (splitLines s.data).find? (fun l => startsWithList totalVisitsLabel l) with
  | some l => parseNatChars (l.drop totalVisitsLabel.length)
  | none => none

end Analytics

namespace Analytics

example : (track_page_view 7 { session_id := some "s1" } emptyStore).sessions =
    [(some "s1", { user_id := "", device_type := "", browser := "", os := ""
                   screen_resolution := "", first_visit := 7, last_visit := 7
                   total_views := 1, duration := none })] := by decide

example :
    lookupSession (runEvents
      [⟨5, { session_id := some "s1" }⟩, ⟨9, { session_id := some "s1" }⟩]
      emptyStore).sessions (some "s1") =
    some { user_id := "", device_type := "", browser := "", os := ""
           screen_resolution := "", first_visit := 5, last_visit := 9
           total_views := 2, duration := none } := by decide

/-- Scenario store of the spec: session s1 visits /a three times and
/b once, all on day 0. -/
def scenarioStore : Store :=
  runEvents
    [⟨1, { session_id := some "s1", page_url := some "/a" }⟩,
     ⟨2, { session_id := some "s1", page_url := some "/a" }⟩,
     ⟨3, { session_id := some "s1", page_url := some "/b" }⟩,
     ⟨4, { session_id := some "s1", page_url := some "/a" }⟩]
    emptyStore

example : (get_daily_report 0 scenarioStore).unique_visitors = 1 := by decide
example : (get_daily_report 0 scenarioStore).total_visits = 4 := by decide
example : (get_daily_report 0 scenarioStore).top_pages = [("/a", 3), ("/b", 1)] := by decide
example : (get_daily_report 1 scenarioStore).total_visits = 0 := by decide
example : parse_total_visits (export_data_csv 90000 emptyStore) = some 0 := by decide
example : parse_total_visits (export_data_csv 3 scenarioStore) = some 4 := by decide
example : natDecimal 120 = "120" := by decide
example : get_popular_pages 0 7 10 scenarioStore =
    [{ page_url := "/a", total_views := 3, unique_visitors := 1 },
     { page_url := "/b", total_views := 1, unique_visitors := 1 }] := by decide

/-- The LIMIT clause bounds the grouped result. -/
theorem topOf_length_le (n : Nat) (xs : List String) : (topOf n xs).length ≤ n :=
  List.length_take_le n _

/-- The ORDER BY clause leaves the grouped result sorted by view count
descending, and LIMIT preserves that order. -/
theorem topOf_sorted (n : Nat) (xs : List String) :
    (topOf n xs).Pairwise viewsDesc :=
  List.Pairwise.sublist (List.take_sublist n _)
    (List.sorted_insertionSort viewsDesc (groupCount xs))

/-- Every row surviving the sort and the LIMIT is a group row: its
count is the multiplicity of its url among the grouped values. -/
theorem topOf_views_eq (n : Nat) (xs : List String) (p : String × Nat)
    (hp : p ∈ topOf n xs) : p.2 = xs.count p.1 ∧ p.1 ∈ xs := by
  have hp2 : p ∈ List.insertionSort viewsDesc (groupCount xs) :=
    List.take_subset n _ hp
  have hp3 : p ∈ groupCount xs := (List.perm_insertionSort viewsDesc _).subset hp2
  obtain ⟨u, hu, hpu⟩ := List.mem_map.mp hp3
  refine ⟨?_, ?_⟩
  · rw [← hpu]
  · rw [← hpu]
    exact List.mem_dedup.mp hu

/-- GROUP BY produces one row per distinct url, so the urls of the
sorted and truncated result are pairwise distinct. -/
theorem topOf_keys_nodup (n : Nat) (xs : List String) :
    ((topOf n xs).map Prod.fst).Nodup := by
  have h1 : (groupCount xs).map Prod.fst = xs.dedup := by
    simp [groupCount, List.map_map, Function.comp_def]
  have hperm : List.Perm ((List.insertionSort viewsDesc (groupCount xs)).map Prod.fst)
      ((groupCount xs).map Prod.fst) :=
    (List.perm_insertionSort viewsDesc _).map Prod.fst
  have h2 : ((List.insertionSort viewsDesc (groupCount xs)).map Prod.fst).Nodup :=
    hperm.nodup_iff.mpr (h1 ▸ List.nodup_dedup xs)
  exact h2.sublist (List.Sublist.map Prod.fst (List.take_sublist n _))

/-- Claim C3: top_pages groups the day's page views by url with one
entry per url whose count is the number of that day's views of the
url, its length never exceeds ten, and it is sorted by view count
descending, so equal counts always precede any strictly smaller count
no matter the insertion order. -/
theorem top_pages_sorted_bounded (d : Nat) (s : Store) :
    (get_daily_report d s).top_pages.length ≤ 10 ∧
    (get_daily_report d s).top_pages.Pairwise (fun a b => b.2 ≤ a.2) ∧
    ((get_daily_report d s).top_pages.map Prod.fst).Nodup ∧
    ∀ p ∈ (get_daily_report d s).top_pages,
      p.2 = ((viewsOn d s).filter (fun v => v.page_url == p.1)).length := by
  refine ⟨topOf_length_le 10 _, topOf_sorted 10 _, topOf_keys_nodup 10 _, ?_⟩
  intro p hp
  have h := (topOf_views_eq 10 _ p hp).1
  rw [h, List.count_eq_countP, List.countP_map, List.countP_eq_length_filter]
  rfl

/-- Witness for claim C3 at the scenario store. -/
theorem top_pages_sorted_bounded_witness :
    (("/a", 3) ∈ (get_daily_report 0 scenarioStore).top_pages) ∧
    3 = ((viewsOn 0 scenarioStore).filter (fun v => v.page_url == "/a")).length :=
  ⟨by decide, (top_pages_sorted_bounded 0 scenarioStore).2.2.2 ("/a", 3) (by decide)⟩

/-- Claim C10: in every successfully built daily report page_views
equals total_visits and unique_visitors never exceeds total_visits,
and every popular-pages entry has its distinct-session count bounded
by its view count. -/
theorem report_cross_field_invariants (d : Nat) (s : Store)
    (nowDay days limit : Nat) :
    (get_daily_report d s).page_views = (get_daily_report d s).total_visits ∧
    (get_daily_report d s).unique_visitors ≤ (get_daily_report d s).total_visits ∧
    ∀ p ∈ get_popular_pages nowDay days limit s,
      p.unique_visitors ≤ p.total_views := by
  refine ⟨rfl, ?_, ?_⟩
  · exact le_trans (List.Sublist.length_le (List.dedup_sublist _))
      (List.length_filterMap_le _ _)
  · intro p hp
    simp only [get_popular_pages] at hp
    have hp2 := List.take_subset _ _ hp
    have hp3 := (List.perm_insertionSort popDesc _).subset hp2
    obtain ⟨u, hu, hpu⟩ := List.mem_map.mp hp3
    rw [← hpu]
    exact le_trans (List.Sublist.length_le (List.dedup_sublist _))
      (List.length_filterMap_le _ _)

/-- Witness for claim C10 at the scenario store. -/
theorem report_cross_field_invariants_witness :
    (({ page_url := "/a", total_views := 3, unique_visitors := 1 } : PopularPage) ∈
      get_popular_pages 0 7 10 scenarioStore) ∧
    (1 : Nat) ≤ 3 :=
  ⟨by decide, (report_cross_field_invariants 0 scenarioStore 0 7 10).2.2
    { page_url := "/a", total_views := 3, unique_visitors := 1 } (by decide)⟩

/-- Replace the conversion_type and conversion_value of every stored
conversion, leaving every other column untouched. -/
def retagConversions (g : ConversionRow → String) (v : ConversionRow → Int) (s : Store) : Store :=
  let f := fun c => { c with conversion_type := g c, conversion_value := v c }
  { s with conversions := s.conversions.map f }

/-- Decimal digit characters carry their value in their code point
and are digit characters. -/
theorem decDigitChar_spec (n : Nat) (h : n < 10) :
    (decDigitChar n).toNat = 48 + n ∧ (decDigitChar n).isDigit = true := by
  interval_cases n <;> exact ⟨by decide, by decide⟩

/-- The fuelled decimal expansion of a value below its fuel is a
nonempty all-digit string that folds back to the value. -/
theorem decDigitsAux_spec : ∀ (fuel n : Nat), n < fuel →
    decDigitsAux fuel n ≠ [] ∧
    (decDigitsAux fuel n).all (fun c => c.isDigit) = true ∧
    (decDigitsAux fuel n).foldl (fun a c => a * 10 + (c.toNat - 48)) 0 = n := by
  intro fuel
  induction fuel with
  | zero => intro n h; omega
  | succ f ih =>
    intro n h
    by_cases h10 : n < 10
    · obtain ⟨hval, hdig⟩ := decDigitChar_spec n h10
      refine ⟨by simp [decDigitsAux, h10], ?_, ?_⟩
      · simp [decDigitsAux, h10, hdig]
      · simp only [decDigitsAux, if_pos h10, List.foldl_cons, List.foldl_nil, hval]
        omega
    · have hdiv : n / 10 < f := by
        have := Nat.div_lt_self (show 0 < n by omega) (show 1 < 10 by omega)
        omega
      obtain ⟨hne, hall, hfold⟩ := ih (n / 10) hdiv
      have hmod : n % 10 < 10 := Nat.mod_lt n (by omega)
      obtain ⟨hval, hdig⟩ := decDigitChar_spec (n % 10) hmod
      have hstep : decDigitsAux (f + 1) n =
          decDigitsAux f (n / 10) ++ [decDigitChar (n % 10)] := by
        simp [decDigitsAux, h10]
      refine ⟨by simp [hstep], ?_, ?_⟩
      · simp [hstep, List.all_append, hall, hdig]
      · rw [hstep, List.foldl_append, hfold]
        simp only [List.foldl_cons, List.foldl_nil, hval]
        omega

/-- The decimal rendering of a count is a nonempty all-digit string
folding back to the count. -/
theorem decDigits_spec (n : Nat) :
    decDigits n ≠ [] ∧
    (decDigits n).all (fun c => c.isDigit) = true ∧
    (decDigits n).foldl (fun a c => a * 10 + (c.toNat - 48)) 0 = n :=
  decDigitsAux_spec (n + 1) n (Nat.lt_succ_self n)

/-- A digit character is not a newline. -/
theorem digit_ne_newline (c : Char) (h : c.isDigit = true) : c ≠ '\n' := by
  intro hc
  rw [hc] at h
  exact absurd h (by decide)

/-- Reading a decimal rendering back yields the rendered value. -/
theorem parseNatChars_decDigits (n : Nat) : parseNatChars (decDigits n) = some n := by
  obtain ⟨hne, hall, hfold⟩ := decDigits_spec n
  simp [parseNatChars, List.isEmpty_iff, hne, hall, hfold]

/-- Splitting at newlines never yields an empty list of lines. -/
theorem splitLines_ne_nil : ∀ cs : List Char, splitLines cs ≠ [] := by
  intro cs
  induction cs with
  | nil => simp [splitLines]
  | cons c cs2 ih =>
    simp only [splitLines]
    cases hs : splitLines cs2 with
    | nil => simp
    | cons l ls =>
      by_cases hc : c = '\n' <;> simp [hc]

/-- Splitting after a newline-free chunk followed by a newline peels
off exactly that chunk as the first line. -/
theorem splitLines_append_newline (xs rest : List Char)
    (h : ∀ c ∈ xs, c ≠ '\n') :
    splitLines (xs ++ '\n' :: rest) = xs :: splitLines rest := by
  induction xs with
  | nil =>
    obtain ⟨l, ls, hls⟩ := List.exists_cons_of_ne_nil (splitLines_ne_nil rest)
    simp [splitLines, hls]
  | cons c cs ih =>
    have hc : c ≠ '\n' := h c (by simp)
    have ihr := ih (fun x hx => h x (by simp [hx]))
    simp only [List.cons_append, splitLines, List.append_eq]
    rw [ihr]
    simp [hc]

/-- Every list starts with each of its initial segments. -/
theorem startsWithList_append_self : ∀ p t : List Char,
    startsWithList p (p ++ t) = true := by
  intro p
  induction p with
  | nil => intro t; rfl
  | cons c cs ih => intro t; simp [startsWithList, ih]

/-- One peel of the newline join: a newline-free first line splits off
whole. -/
theorem splitLines_joinLines_cons (a b : String) (t : List String)
    (ha : ∀ c ∈ a.data, c ≠ '\n') :
    splitLines ((joinLines (a :: b :: t)).data) =
      a.data :: splitLines ((joinLines (b :: t)).data) := by
  have hdata : (joinLines (a :: b :: t)).data =
      a.data ++ '\n' :: (joinLines (b :: t)).data := by
    simp only [joinLines, String.data_append]
    simp [List.append_assoc]
  rw [hdata, splitLines_append_newline _ _ ha]

/-- A label followed by a decimal cell contains no newline. -/
theorem label_digits_no_newline (lab : String) (n : Nat)
    (hlab : ∀ c ∈ lab.data, c ≠ '\n') :
    ∀ c ∈ (lab ++ natDecimal n).data, c ≠ '\n' := by
  intro c hc
  rw [String.data_append] at hc
  have hdd : (natDecimal n).data = decDigits n := rfl
  rw [hdd] at hc
  rcases List.mem_append.mp hc with h | h
  · exact hlab c h
  · exact digit_ne_newline c (List.all_eq_true.mp (decDigits_spec n).2.1 c h)

/-- Claim C4: the csv export is the fixed ordered list of metric rows
followed by the per-page table header and one row per popular page,
and parsing the Total Visits row back from the exported string yields
exactly the integer total_visits of the report. -/
theorem export_csv_total_visits_roundtrip (now : Nat) (s : Store) :
    csvLines now s =
      ["Metric,Value",
       "Export Date," ++ natDecimal now,
       "Total Visits," ++ natDecimal (get_daily_report (dateOf now) s).total_visits,
       "Unique Visitors," ++ natDecimal (get_daily_report (dateOf now) s).unique_visitors,
       "Page Views," ++ natDecimal (get_daily_report (dateOf now) s).page_views,
       "Conversions," ++ natDecimal (get_daily_report (dateOf now) s).conversions,
       "",
       "Popular Pages,Views,Unique Visitors"] ++
      (get_popular_pages (dateOf now) 30 20 s).map (fun p =>
        p.page_url ++ "," ++ natDecimal p.total_views ++ "," ++ natDecimal p.unique_visitors) ∧
    parse_total_visits (export_data_csv now s) =
      some (get_daily_report (dateOf now) s).total_visits := by
  refine ⟨rfl, ?_⟩
  have h0nl : ∀ c ∈ ("Metric,Value" : String).data, c ≠ '\n' := by decide
  have h1nl : ∀ c ∈ ("Export Date," ++ natDecimal now).data, c ≠ '\n' :=
    label_digits_no_newline "Export Date," now (by decide)
  have h2nl : ∀ c ∈
      ("Total Visits," ++ natDecimal (get_daily_report (dateOf now) s).total_visits).data,
      c ≠ '\n' :=
    label_digits_no_newline "Total Visits," _ (by decide)
  have hsplit : splitLines ((export_data_csv now s).data) =
      ("Metric,Value" : String).data ::
      ("Export Date," ++ natDecimal now).data ::
      ("Total Visits," ++ natDecimal (get_daily_report (dateOf now) s).total_visits).data ::
      splitLines ((joinLines
        (("Unique Visitors," ++ natDecimal (get_daily_report (dateOf now) s).unique_visitors) ::
         (["Page Views," ++ natDecimal (get_daily_report (dateOf now) s).page_views,
           "Conversions," ++ natDecimal (get_daily_report (dateOf now) s).conversions,
           "",
           "Popular Pages,Views,Unique Visitors"] ++
          (get_popular_pages (dateOf now) 30 20 s).map (fun p =>
            p.page_url ++ "," ++ natDecimal p.total_views ++ "," ++
              natDecimal p.unique_visitors)))).data) := by
    show splitLines ((joinLines
        (("Metric,Value" : String) ::
         ("Export Date," ++ natDecimal now) ::
         ("Total Visits," ++ natDecimal (get_daily_report (dateOf now) s).total_visits) ::
         ("Unique Visitors," ++ natDecimal (get_daily_report (dateOf now) s).unique_visitors) ::
         (["Page Views," ++ natDecimal (get_daily_report (dateOf now) s).page_views,
           "Conversions," ++ natDecimal (get_daily_report (dateOf now) s).conversions,
           "",
           "Popular Pages,Views,Unique Visitors"] ++
          (get_popular_pages (dateOf now) 30 20 s).map (fun p =>
            p.page_url ++ "," ++ natDecimal p.total_views ++ "," ++
              natDecimal p.unique_visitors)))).data) = _
    rw [splitLines_joinLines_cons _ _ _ h0nl,
        splitLines_joinLines_cons _ _ _ h1nl,
        splitLines_joinLines_cons _ _ _ h2nl]
  have hl2 : ("Total Visits," ++
        natDecimal (get_daily_report (dateOf now) s).total_visits).data =
      totalVisitsLabel ++ decDigits (get_daily_report (dateOf now) s).total_visits := rfl
  have hp2 : startsWithList totalVisitsLabel
      ("Total Visits," ++
        natDecimal (get_daily_report (dateOf now) s).total_visits).data = true := by
    rw [hl2]
    exact startsWithList_append_self _ _
  simp only [parse_total_visits, hsplit]
  rw [List.find?_cons_of_neg _ (by simp [totalVisitsLabel, startsWithList]),
      List.find?_cons_of_neg _ (by simp [totalVisitsLabel, startsWithList]),
      List.find?_cons_of_pos _ hp2]
  simp only [hl2, List.drop_left]
  exact parseNatChars_decDigits _

/-- Claim C8: the conversions field of the daily report equals the
number of conversion events recorded with a timestamp on that date,
and rewriting the conversion_type and conversion_value of every stored
conversion leaves that count unchanged. -/
theorem conversions_count_type_independent (d : Nat) (s : Store)
    (g : ConversionRow → String) (v : ConversionRow → Int) :
    (get_daily_report d s).conversions =
      (s.conversions.filter (fun c => dateOf c.timestamp == d)).length ∧
    (get_daily_report d (retagConversions g v s)).conversions =
      (get_daily_report d s).conversions := by
  refine ⟨rfl, ?_⟩
  simp only [get_daily_report, retagConversions, List.filter_map, List.length_map]
  exact congrArg List.length (List.filter_congr (fun c _ => rfl))

/-- Effect of the sessions upsert at the upserted key: a fresh key is
inserted with the new-session row, a seen key keeps its row except
that last_visit becomes now and total_views grows by one. -/
theorem lookup_upsert_self (now : Nat) (d : PageViewData) (sid : String)
    (h : d.session_id = some sid) (sess : List (Option String × SessionRow)) :
    lookupSession (upsertSession now d sess) (some sid) =
      match lookupSession sess (some sid) with
      | none => some (newSessionRow now d)
      | some row => some { row with last_visit := now, total_views := row.total_views + 1 } := by
  simp only [upsertSession, h]
  by_cases hc : sess.any (fun p => p.1 == some sid) = true
  · rw [if_pos hc]
    obtain ⟨q, hq, hqp⟩ := List.any_eq_true.mp hc
    have hfind : (sess.find? (fun p => p.1 == some sid)).isSome :=
      List.find?_isSome.mpr ⟨q, hq, hqp⟩
    obtain ⟨r, hr⟩ := Option.isSome_iff_exists.mp hfind
    have hrp : (r.1 == some sid) = true := by simpa using List.find?_some hr
    have hpred : ∀ p : Option String × SessionRow,
        ((fun p : Option String × SessionRow => p.1 == some sid)
          (if p.1 == some sid then
            (p.1, { p.2 with last_visit := now, total_views := p.2.total_views + 1 })
          else p)) = (p.1 == some sid) := by
      intro p
      by_cases hp : p.1 = some sid <;> simp [hp]
    have hr1 : r.1 = some sid := by simpa using hrp
    simp only [lookupSession, List.find?_map, Function.comp_def, hpred, hr,
      Option.map_map, Option.map_some]
    simp [hr1]
  · rw [if_neg hc]
    have hnone : sess.find? (fun p => p.1 == some sid) = none := by
      rw [List.find?_eq_none]
      intro x hx hpx
      exact hc (List.any_eq_true.mpr ⟨x, hx, hpx⟩)
    simp [lookupSession, hnone]

/-- Folding track_page_view calls that all carry one session id over a
store already holding a row for it: total_views grows by the number of
calls and last_visit becomes the time of the last call, while every
other column of the row is untouched. -/
theorem lookup_runEvents_of_some (sid : String) :
    ∀ (evs : List Ev) (s : Store) (row : SessionRow),
      (∀ e ∈ evs, e.data.session_id = some sid) →
      lookupSession s.sessions (some sid) = some row →
      lookupSession (runEvents evs s).sessions (some sid) =
        some { row with
          last_visit := match evs.getLast? with
            | some e => e.now
            | none => row.last_visit
          total_views := row.total_views + evs.length } := by
  intro evs
  induction evs with
  | nil =>
    intro s row _ hrow
    simpa using hrow
  | cons e es ih =>
    intro s row hall hrow
    have hstep : lookupSession (track_page_view e.now e.data s).sessions (some sid) =
        some { row with last_visit := e.now, total_views := row.total_views + 1 } := by
      have := lookup_upsert_self e.now e.data sid (hall e (by simp)) s.sessions
      simp only [track_page_view] at *
      rw [this, hrow]
    have hrunl : runEvents (e :: es) s = runEvents es (track_page_view e.now e.data s) := rfl
    rw [hrunl]
    have hres := ih (track_page_view e.now e.data s)
      { row with last_visit := e.now, total_views := row.total_views + 1 }
      (fun x hx => hall x (by simp [hx])) hstep
    rw [hres]
    cases es with
    | nil => simp
    | cons e2 es2 =>
      obtain ⟨x, hx⟩ := Option.isSome_iff_exists.mp
        (List.getLast?_isSome.mpr (List.cons_ne_nil e2 es2))
      simp only [List.getLast?_cons_cons, hx, List.length_cons]
      simp only [Option.some.injEq, SessionRow.mk.injEq, and_true, true_and]
      omega

/-- Claim C1: starting from a store with no row for a session id, a
nonempty sequence of page-view events all carrying that session id
leaves a sessions row whose total_views is the number of events, whose
first_visit is the time of the first event (the insert of the first
event sets first_visit = last_visit = its time) and whose last_visit
is the time of the last event. -/
theorem session_totals_of_runEvents (s : Store) (sid : String) (evs : List Ev)
    (hne : evs ≠ [])
    (hall : ∀ e ∈ evs, e.data.session_id = some sid)
    (hfresh : lookupSession s.sessions (some sid) = none) :
    ∃ row : SessionRow,
      lookupSession (runEvents evs s).sessions (some sid) = some row ∧
      row.total_views = evs.length ∧
      (∃ efirst, evs.head? = some efirst ∧
        row.first_visit = efirst.now ∧
        row.user_id = efirst.data.user_id.getD "") ∧
      ∃ elast, evs.getLast? = some elast ∧ row.last_visit = elast.now := by
  cases evs with
  | nil => exact absurd rfl hne
  | cons e es =>
    have hstep : lookupSession (track_page_view e.now e.data s).sessions (some sid) =
        some (newSessionRow e.now e.data) := by
      have := lookup_upsert_self e.now e.data sid (hall e (by simp)) s.sessions
      simp only [track_page_view] at *
      rw [this, hfresh]
    have hres := lookup_runEvents_of_some sid es (track_page_view e.now e.data s)
      (newSessionRow e.now e.data) (fun x hx => hall x (by simp [hx])) hstep
    refine ⟨_, hres, ?_, ⟨e, rfl, rfl, rfl⟩, ?_⟩
    · simp only [List.length_cons, newSessionRow]
      omega
    · cases es with
      | nil => exact ⟨e, rfl, rfl⟩
      | cons e2 es2 =>
        have hg : (e :: e2 :: es2).getLast? = (e2 :: es2).getLast? :=
          List.getLast?_cons_cons
        obtain ⟨x, hx⟩ := Option.isSome_iff_exists.mp
          (List.getLast?_isSome.mpr (List.cons_ne_nil e2 es2))
        exact ⟨x, by rw [hg, hx], by simp [hx]⟩

/-- Witness for claim C1: two events for one fresh session. -/
theorem session_totals_of_runEvents_witness :
    ([⟨5, { session_id := some "s1" }⟩, ⟨9, { session_id := some "s1" }⟩] : List Ev) ≠ [] ∧
    ∃ row : SessionRow,
      lookupSession (runEvents
          [⟨5, { session_id := some "s1" }⟩, ⟨9, { session_id := some "s1" }⟩]
          emptyStore).sessions (some "s1") = some row ∧
      row.total_views = 2 ∧
      (∃ efirst, ([⟨5, { session_id := some "s1" }⟩, ⟨9, { session_id := some "s1" }⟩] : List Ev).head? = some efirst ∧
        row.first_visit = efirst.now ∧
        row.user_id = efirst.data.user_id.getD "") ∧
      ∃ elast, ([⟨5, { session_id := some "s1" }⟩, ⟨9, { session_id := some "s1" }⟩] : List Ev).getLast? = some elast ∧
        row.last_visit = elast.now :=
  ⟨by decide,
    session_totals_of_runEvents emptyStore "s1"
      [⟨5, { session_id := some "s1" }⟩, ⟨9, { session_id := some "s1" }⟩]
      (by decide) (by decide) (by decide)⟩

/-- Restriction of the store to the events of one calendar day. -/
def restrictStore (d : Nat) (s : Store) : Store where
  page_views := s.page_views.filter (fun v => dateOf v.timestamp == d)
  sessions := s.sessions
  conversions := s.conversions.filter (fun c => dateOf c.timestamp == d)

/-- Claim C2: the daily report reads only the events whose timestamp
truncates to the report's day: it is unchanged by restricting the
store to that day, and appending a page view or a conversion of any
other day leaves every field of the report untouched. -/
theorem daily_report_date_boundary (d : Nat) (s : Store)
    (e : PageViewRow) (c : ConversionRow)
    (he : dateOf e.timestamp ≠ d) (hc : dateOf c.timestamp ≠ d) :
    get_daily_report d (restrictStore d s) = get_daily_report d s ∧
    get_daily_report d { s with page_views := s.page_views ++ [e] } = get_daily_report d s ∧
    get_daily_report d { s with conversions := s.conversions ++ [c] } = get_daily_report d s := by
  refine ⟨?_, ?_, ?_⟩ <;>
    simp [get_daily_report, restrictStore, viewsOn, List.filter_filter,
      List.filter_append, beq_iff_eq, he, hc]

/-- Concrete page view falling on day one, off the day-zero report. -/
def offDayView : PageViewRow where
  session_id := none
  page_url := ""
  page_title := ""
  referrer := ""
  user_agent := ""
  ip_address := ""
  country := ""
  city := ""
  timestamp := 86400
  time_on_page := 0
  scroll_depth := 0

/-- Concrete conversion falling on day one, off the day-zero report. -/
def offDayConversion : ConversionRow where
  session_id := none
  conversion_type := ""
  conversion_value := 0
  page_url := none
  form_data := none
  timestamp := 86400

/-- Witness for claim C2 at a concrete store and off-date events. -/
theorem daily_report_date_boundary_witness :
    dateOf offDayView.timestamp ≠ 0 ∧
    (get_daily_report 0 (restrictStore 0 scenarioStore) = get_daily_report 0 scenarioStore ∧
     get_daily_report 0 { scenarioStore with page_views := scenarioStore.page_views ++ [offDayView] } = get_daily_report 0 scenarioStore ∧
     get_daily_report 0 { scenarioStore with conversions := scenarioStore.conversions ++ [offDayConversion] } = get_daily_report 0 scenarioStore) :=
  ⟨by decide, daily_report_date_boundary 0 scenarioStore offDayView offDayConversion
    (by decide) (by decide)⟩

/-- Claim C5: when any statement of a tracking call raises, the error
is logged, the call returns normally, and the committed store is
exactly the store before the call; when nothing raises the call
commits precisely the full effect of the operation, so callers never
see a page-view row without its session update. -/
theorem failure_rollback_no_partial_writes (f1 f2 f3 g1 g2 : Bool) (now : Nat)
    (d : PageViewData) (sid ctype : String) (cvalue : Int) (fd : Option String)
    (db : Store) :
    ((f1 || f2 || f3) = true →
      track_page_view_run f1 f2 f3 now d db = { state := db, errorLogged := true }) ∧
    track_page_view_run false false false now d db =
      { state := track_page_view now d db, errorLogged := false } ∧
    ((g1 || g2) = true →
      track_conversion_run g1 g2 now sid ctype cvalue fd db =
        { state := db, errorLogged := true }) ∧
    track_conversion_run false false now sid ctype cvalue fd db =
      { state := track_conversion now sid ctype cvalue fd db, errorLogged := false } := by
  refine ⟨?_, rfl, ?_, rfl⟩
  · intro h
    cases f1 <;> cases f2 <;> cases f3 <;>
      simp_all [track_page_view_run, runTxn, runStmts,
        stmtInsertPageView, stmtUpsertSession, stmtCommit]
  · intro h
    cases g1 <;> cases g2 <;>
      simp_all [track_conversion_run, runTxn, runStmts,
        stmtInsertConversion, stmtCommit]

/-- Witness for claim C5 at a concrete failing and succeeding input. -/
theorem failure_rollback_no_partial_writes_witness :
    (true || false || false) = true ∧
    track_page_view_run true false false 3 { session_id := some "s1" } scenarioStore =
      { state := scenarioStore, errorLogged := true } :=
  ⟨by decide,
    (failure_rollback_no_partial_writes true false false false false 3
      { session_id := some "s1" } "s1" "t" 0 none scenarioStore).1 (by decide)⟩

/-- Claim C7 (code behavior at the failing input): the four tracking
and report operations acquire and release their store handle on every
exit path, but export_data ends every run with one more acquisition
than release, because it never closes the connection it opens. -/
theorem export_data_handle_leak :
    (∀ b : Bool,
      acquires (track_page_view_htrace b) = releases (track_page_view_htrace b) ∧
      acquires (track_conversion_htrace b) = releases (track_conversion_htrace b) ∧
      acquires (get_daily_report_htrace b) = releases (get_daily_report_htrace b) ∧
      acquires (get_popular_pages_htrace b) = releases (get_popular_pages_htrace b)) ∧
    ∀ b1 b2 : Bool,
      acquires (export_data_htrace b1 b2) = releases (export_data_htrace b1 b2) + 1 := by
  constructor
  · intro b; exact ⟨rfl, rfl, rfl, rfl⟩
  · intro b1 b2; rfl

/-- Counterexample to claim C6 as stated: when the fifth aggregation
query (conversions) raises after the earlier queries succeeded, the
returned report keeps the already-computed counts, so it is not the
empty/default report. -/
theorem report_error_default_counterexample :
    (get_daily_report_run 4 0 scenarioStore).total_visits = 4 ∧
    get_daily_report_run 4 0 scenarioStore ≠ emptyReport 0 ∧
    (emptyReport 0).total_visits = 0 := by decide

/-- Claim C6 amended: an aggregation error never propagates;
get_daily_report returns the default report updated by exactly the
queries that completed before the error, so a failure at the first
query yields the full default report and any failure leaves the later
fields (conversions in particular) at their defaults, while
get_popular_pages returns the empty list on error. -/
theorem report_error_degrades_partially (d ok : Nat) (s : Store)
    (nowDay days limit : Nat) (hok : ok ≤ 4) :
    get_daily_report_run 0 d s = emptyReport d ∧
    (get_daily_report_run ok d s).conversions = 0 ∧
    (get_daily_report_run ok d s).date = d ∧
    get_popular_pages_run true nowDay days limit s = [] ∧
    get_daily_report_run 5 d s = get_daily_report d s := by
  refine ⟨by simp [get_daily_report_run, emptyReport], ?_, ?_, rfl, ?_⟩
  · interval_cases ok <;> rfl
  · interval_cases ok <;> rfl
  · simp [get_daily_report_run, get_daily_report, emptyReport]

/-- Witness for claim C6 at a concrete input with a mid-sequence
failure. -/
theorem report_error_degrades_partially_witness :
    (3 : Nat) ≤ 4 ∧
    (get_daily_report_run 0 0 scenarioStore = emptyReport 0 ∧
     (get_daily_report_run 3 0 scenarioStore).conversions = 0 ∧
     (get_daily_report_run 3 0 scenarioStore).date = 0 ∧
     get_popular_pages_run true 0 7 10 scenarioStore = [] ∧
     get_daily_report_run 5 0 scenarioStore = get_daily_report 0 scenarioStore) :=
  ⟨by decide, report_error_degrades_partially 0 3 scenarioStore 0 7 10 (by decide)⟩

/-- Counterexample to claim C9 as stated: a payload missing the
country and city keys is stored with the string Unknown in those
columns, not with the empty string. -/
theorem page_view_defaults_counterexample :
    ((track_page_view 0 {} emptyStore).page_views.map (fun v => v.country)) = ["Unknown"] ∧
    ((track_page_view 0 {} emptyStore).page_views.map (fun v => v.city)) = ["Unknown"] ∧
    ("Unknown" : String) ≠ "" := by decide

/-- Claim C9 amended: every payload appends exactly one page-view row
and is never rejected; missing text fields default to the empty
string, except country and city which default to Unknown; missing
numeric fields default to zero; session_id is stored exactly as given,
absent (NULL) included, with no validation. -/
theorem page_view_defaults_amended (now : Nat) (data : PageViewData) (s : Store) :
    ∃ r : PageViewRow,
      (track_page_view now data s).page_views = s.page_views ++ [r] ∧
      r.session_id = data.session_id ∧
      r.page_url = data.page_url.getD "" ∧
      r.page_title = data.page_title.getD "" ∧
      r.referrer = data.referrer.getD "" ∧
      r.user_agent = data.user_agent.getD "" ∧
      r.ip_address = data.ip_address.getD "" ∧
      r.country = data.country.getD "Unknown" ∧
      r.city = data.city.getD "Unknown" ∧
      r.time_on_page = data.time_on_page.getD 0 ∧
      r.scroll_depth = data.scroll_depth.getD 0 ∧
      r.timestamp = now :=
  ⟨pageViewRowOf now data, rfl, rfl, rfl, rfl, rfl, rfl, rfl, rfl, rfl, rfl, rfl, rfl⟩

end Analytics
